import Mathlib

/-!
# Flood-guard pipeline: shallow embedding and verification

Shallow embedding of `src/api/index.py` (inhooh/flood-guard): the district
resolver, the current-conditions weather call, the risk scorer, the advisory
composer, and the `/predict` pipeline. Python floats are modelled as `ℚ`,
Python `int(...)` truncation as `pyInt`, the external weather service's
response as an explicit `ApiOutcome` value, and `np.random.randint` draws as
explicit natural-number seeds.
-/

namespace FloodGuard

/-- Python `int(q)` on a float: truncation toward zero. -/
def pyInt (q : ℚ) : ℤ :=
  if 0 ≤ q then ⌊q⌋ else ⌈q⌉

/-! ## Risk scorer (`calculate_flood_risk`, index.py lines 201-205)

```python
def calculate_flood_risk(rainfall, base_depth, elevation=10):
    rain_score = min(100, (rainfall / 50) * 100)
    depth_score = min(50, base_depth * 10)
    total_risk = (rain_score * 0.7) + (depth_score * 0.3)
    return min(99, int(total_risk))
```
The `elevation` parameter is accepted and never used, exactly as in the
source. -/

def calculate_flood_risk (rainfall base_depth : ℚ) (elevation : ℚ) : ℤ :=
  let rain_score : ℚ := min 100 ((rainfall / 50) * 100)
  let depth_score : ℚ := min 50 (base_depth * 10)
  let total_risk : ℚ := (rain_score * 0.7) + (depth_score * 0.3)
  min 99 (pyInt total_risk)

/-- Modelled from the spec's words, for comparison with the code's scorer:
`min(99, floor(0.7*(0.6*min(100, currentRain/30*100) +
0.4*min(100, forecastRain/50*100)) + 0.3*min(50, baseDepth*10)))`.
The source has no such forecast-weighted scorer. -/
def spec_score (currentRain forecastRain baseDepth : ℚ) : ℤ :=
  let rainScore : ℚ := min 100 ((currentRain / 30) * 100)
  let forecastScore : ℚ := min 100 ((forecastRain / 50) * 100)
  let combinedRain : ℚ := rainScore * 0.6 + forecastScore * 0.4
  let depthScore : ℚ := min 50 (baseDepth * 10)
  min 99 ⌊combinedRain * 0.7 + depthScore * 0.3⌋

/-! ## Advisory composer (index.py lines 232-239)

The four `if/elif/elif/else` comment branches are abstracted to their tier:
the interpolated Korean message strings are presentation detail; only the
tier selection thresholds are modelled. -/

inductive Tier where
  | severe
  | warning
  | rain
  | safe
  deriving DecidableEq, Repr

/-- Tier selection of the comment block in `predict_flood_risk`:
`risk_score >= 80` severe, `elif risk_score >= 50` warning (caution),
`elif rainfall > 0` rain, `else` safe. -/
def advisory_tier (risk_score : ℤ) (rainfall : ℚ) : Tier :=
  if risk_score ≥ 80 then Tier.severe
  else if risk_score ≥ 50 then Tier.warning
  else if rainfall > 0 then Tier.rain
  else Tier.safe

/-- Modelled from the spec's words, for comparison with the code's tiers:
tier 1 `score ≥ 80`, tier 2 `forecastRain > 30` regardless of score,
tier 3 `currentRain > 0`, tier 4 all-clear. The source has no forecast
input to its comment logic. -/
def spec_advisory_tier (score : ℤ) (forecastRain currentRain : ℚ) : Tier :=
  if score ≥ 80 then Tier.severe
  else if forecastRain > 30 then Tier.warning
  else if currentRain > 0 then Tier.rain
  else Tier.safe

/-! ## District directory and resolver (index.py lines 68-134)

Python's `gu_name in location_keyword` is contiguous-substring containment
over the string's characters, modelled by `subChars` on the character
lists. -/

/-- Containment of `needle` as a contiguous sublist of the haystack, the
semantics of Python's `in` operator on strings. -/
def subChars (needle : List Char) : List Char → Bool
  | [] => needle.isEmpty
  | hay@(_ :: t) => needle.isPrefixOf hay || subChars needle t

/-- Python `needle in hay` for strings (case-sensitive exact substring). -/
def isSubstr (needle hay : String) : Bool :=
  subChars needle.data hay.data

/-- City record value: `(lat, lon, nx, ny, base_depth)` as in the tuples of
`KOREAN_CITIES_FLAT`. -/
abbrev CityData := ℚ × ℚ × ℕ × ℕ × ℚ

/-- The embedded fallback table (index.py lines 68-105), in its Python
insertion order, which `dict.items()` preserves. -/
def KOREAN_CITIES_FLAT : List (String × CityData) :=
  [("강남구", (37.5172, 127.0474, 61, 126, 0.5)),
   ("강동구", (37.5301, 127.1237, 62, 126, 0.6)),
   ("강북구", (37.6398, 127.0255, 61, 129, 0.4)),
   ("강서구", (37.5509, 126.8495, 55, 127, 0.7)),
   ("관악구", (37.4784, 126.9515, 59, 125, 0.5)),
   ("광진구", (37.5386, 127.0823, 62, 127, 0.6)),
   ("구로구", (37.4955, 126.8874, 56, 125, 0.5)),
   ("금천구", (37.4519, 126.9020, 57, 124, 0.4)),
   ("노원구", (37.6542, 127.0568, 61, 130, 0.7)),
   ("도봉구", (37.6688, 127.0471, 61, 131, 0.6)),
   ("동대문구", (37.5744, 127.0396, 61, 127, 0.5)),
   ("동작구", (37.5124, 126.9393, 59, 126, 0.5)),
   ("마포구", (37.5663, 126.9018, 58, 127, 0.6)),
   ("서대문구", (37.5791, 126.9368, 59, 127, 0.4)),
   ("서초구", (37.4836, 127.0324, 61, 125, 0.5)),
   ("성동구", (37.5633, 127.0368, 61, 127, 0.6)),
   ("성북구", (37.5894, 127.0167, 61, 128, 0.5)),
   ("송파구", (37.5145, 127.1059, 62, 126, 0.7)),
   ("양천구", (37.5270, 126.8562, 56, 126, 0.4)),
   ("영등포구", (37.5264, 126.8963, 57, 126, 0.5)),
   ("용산구", (37.5326, 126.9900, 60, 126, 0.6)),
   ("은평구", (37.6027, 126.9291, 58, 128, 0.5)),
   ("종로구", (37.5730, 126.9794, 60, 127, 0.4)),
   ("중구", (37.5638, 126.9975, 60, 127, 0.5)),
   ("중랑구", (37.6066, 127.0926, 62, 128, 0.6)),
   ("해운대구", (35.1631, 129.1636, 102, 42, 1.0)),
   ("부산진구", (35.1628, 129.0532, 100, 42, 0.9)),
   ("수영구", (35.1455, 129.1132, 101, 41, 1.0)),
   ("분당구", (37.3827, 127.1189, 61, 122, 0.4)),
   ("일산동구", (37.6777, 126.7489, 56, 129, 0.5)),
   ("수성구", (35.8584, 128.6306, 90, 90, 0.7)),
   ("유성구", (36.3622, 127.3563, 67, 101, 0.7)),
   ("연수구", (37.4094, 126.6784, 56, 123, 0.2))]

/-- The first-substring-match loop shared by both branches of
`find_city_data` (the Firestore scan and the local-table scan run the same
loop body over their respective tables):
`for gu_name, data in table: if gu_name in location_keyword: return data`. -/
def scan_city_table : List (String × CityData) → String → Option CityData
  | [], _ => none
  | (gu_name, data) :: rest, location_keyword =>
    if isSubstr gu_name location_keyword then some data
    else scan_city_table rest location_keyword

/-- The resolver `find_city_data` (index.py lines 108-134) in the
`db = None` mode (no Firestore handle): scan the embedded table and return
the first record whose name occurs in the location text, else `None`. -/
def find_city_data (location_keyword : String) : Option CityData :=
  scan_city_table KOREAN_CITIES_FLAT location_keyword

/-- City-resolution step of `predict_flood_risk` (index.py lines 215-223):
unpack the matched record's `(nx, ny, base_depth)`, or fall back to the
default `nx, ny = 60, 127` and `base_depth = 0.5`. -/
def resolve_city (location_keyword : String) : ℕ × ℕ × ℚ :=
  match find_city_data location_keyword with
  | some (_lat, _lon, nx, ny, base_depth) => (nx, ny, base_depth)
  | none => (60, 127, 0.5)

/-! ## Weather gateway (`get_real_weather`, index.py lines 137-198)

The call's time-window selection (lines 140-149) is modelled by
`target_time` below over an explicit wall-clock value; the call's result
logic is modelled by `get_real_weather` over an explicit `ApiOutcome`
(what the external service and the JSON decoding did) and three explicit
seeds for the `np.random.randint` draws of the simulation fallback. -/

/-- Wall-clock date-time: absolute calendar day index, hour of day
(0-23), minute (0-59). -/
structure DateTime where
  day : ℤ
  hour : ℕ
  minute : ℕ
  deriving DecidableEq, Repr

/-- Python `now - timedelta(hours=1)`: borrow from the day when the hour
is 0, so the calendar date rolls back naturally across midnight. -/
def sub_one_hour (t : DateTime) : DateTime :=
  if t.hour = 0 then ⟨t.day - 1, 23, t.minute⟩
  else ⟨t.day, t.hour - 1, t.minute⟩

/-- Time-window selection of `get_real_weather` (index.py lines 143-146):
`if now.minute < 45: target_time = now - timedelta(hours=1)
else: target_time = now`. The query then uses `target_time`'s date as
`base_date` and its hour as `base_time`. -/
def target_time (now : DateTime) : DateTime :=
  if now.minute < 45 then sub_one_hour now else now

/-- Absolute hour index of a wall-clock value, to state hour-targeting
across midnight. -/
def absHour (t : DateTime) : ℤ :=
  24 * t.day + t.hour

/-- Model of `np.random.randint(lo, hi)`: an integer in `[lo, hi)`,
selected here by an explicit seed `r`. -/
def randint (lo hi : ℕ) (r : ℕ) : ℕ :=
  lo + r % (hi - lo)

/-- Outcome of the HTTP call and JSON decoding of the current-conditions
request, as seen by `get_real_weather`: a timeout (or other request
exception), or a response with its status code and either the parsed
`(category, value)` item list or a parse failure. -/
inductive ApiOutcome where
  | timeout
  | response (status : ℕ) (body : Except Unit (List (String × ℚ)))

/-- The parsing loop of `get_real_weather` (index.py lines 171-184): fold
over the items, assigning `RN1` to rain, `T1H` to temperature, `WSD` to
wind; unrecognized categories are ignored; later occurrences overwrite
earlier ones; missing categories keep the initial 0. -/
def parse_items : List (String × ℚ) → ℚ × ℚ × ℚ → ℚ × ℚ × ℚ
  | [], acc => acc
  | (cat, val) :: rest, (rain, temp, wind) =>
    parse_items rest
      (if cat = "RN1" then (val, temp, wind)
       else if cat = "T1H" then (rain, val, wind)
       else if cat = "WSD" then (rain, temp, val)
       else (rain, temp, wind))

/-- The simulation fallback of `get_real_weather` (index.py line 198):
`return np.random.randint(0, 5), np.random.randint(15, 25),
np.random.randint(1, 10)`. -/
def sim_weather (r1 r2 r3 : ℕ) : ℚ × ℚ × ℚ :=
  ((randint 0 5 r1 : ℕ), ((randint 15 25 r2 : ℕ), (randint 1 10 r3 : ℕ)))

/-- Result logic of `get_real_weather` (index.py lines 164-198): on a 200
response whose payload parses, return the folded `(rain, temp, wind)`;
on a non-200 status, a parse error, or a request exception, fall through
to the simulation fallback. `nx`/`ny` only address the outbound request
(they select which grid cell the outcome is for) and do not enter the
result computation. -/
def get_real_weather (nx ny : ℕ) (outcome : ApiOutcome) (r1 r2 r3 : ℕ) : ℚ × ℚ × ℚ :=
  match outcome with
  | ApiOutcome.timeout => sim_weather r1 r2 r3
  | ApiOutcome.response status body =>
    if status = 200 then
      match body with
      | Except.ok items => parse_items items (0, 0, 0)
      | Except.error _ => sim_weather r1 r2 r3
    else sim_weather r1 r2 r3

/-- Failure modes of the current-conditions call: request exception,
non-200 status, or parse error. On exactly these, the code falls through
to `sim_weather`. -/
def weather_call_failed : ApiOutcome → Bool
  | ApiOutcome.timeout => true
  | ApiOutcome.response status (Except.ok _) => status != 200
  | ApiOutcome.response _ (Except.error _) => true

/-! ## The `/predict` pipeline (`predict_flood_risk`, index.py lines 208-248) -/

/-- Request model (index.py lines 61-64). -/
structure LocationRequest where
  location : String
  lat : ℚ
  lon : ℚ

/-- Response payload of `predict_flood_risk` (index.py lines 241-248),
with the interpolated comment string abstracted to its advisory tier. -/
structure PredictResponse where
  riskScore : ℤ
  waterLevel : ℚ
  rainfall : ℚ
  windSpeed : ℚ
  temperature : ℚ
  comment : Tier
  deriving DecidableEq

/-- The `/predict` endpoint body (index.py lines 210-248): resolve the
city from the location text (default grid `(60,127)` and depth `0.5` on
no match), fetch the weather for that grid, score with `elevation=15`,
compose the advisory, and assemble the response. `request.lat` and
`request.lon` are never read. -/
def predict_flood_risk (request : LocationRequest) (outcome : ApiOutcome)
    (r1 r2 r3 : ℕ) : PredictResponse :=
  let location_keyword := request.location
  let city := resolve_city location_keyword
  let nx := city.1
  let ny := city.2.1
  let base_depth := city.2.2
  let weather := get_real_weather nx ny outcome r1 r2 r3
  let rainfall := weather.1
  let temp := weather.2.1
  let wind := weather.2.2
  let risk_score := calculate_flood_risk rainfall base_depth 15
  { riskScore := risk_score
    waterLevel := base_depth + (rainfall * 0.01)
    rainfall := rainfall
    windSpeed := wind
    temperature := temp
    comment := advisory_tier risk_score rainfall }

/-- Modelled from the spec's words, for comparison with the code's water
level: `baseDepth + currentRain*0.01 + forecastRain*0.005`. The source
computes no forecast term. -/
def spec_water_level (baseDepth currentRain forecastRain : ℚ) : ℚ :=
  baseDepth + currentRain * 0.01 + forecastRain * 0.005

/-! ## Helper lemmas -/

/-- The scorer's pre-truncation total is nonnegative on nonnegative
inputs. -/
lemma total_risk_nonneg (rainfall base_depth : ℚ)
    (hr : 0 ≤ rainfall) (hb : 0 ≤ base_depth) :
    (0 : ℚ) ≤ min 100 ((rainfall / 50) * 100) * 0.7 + min 50 (base_depth * 10) * 0.3 := by
  have h1 : (0 : ℚ) ≤ min 100 ((rainfall / 50) * 100) :=
    le_min (by norm_num) (mul_nonneg (div_nonneg hr (by norm_num)) (by norm_num))
  have h2 : (0 : ℚ) ≤ min 50 (base_depth * 10) :=
    le_min (by norm_num) (mul_nonneg hb (by norm_num))
  have h3 := mul_nonneg h1 (by norm_num : (0 : ℚ) ≤ 0.7)
  have h4 := mul_nonneg h2 (by norm_num : (0 : ℚ) ≤ 0.3)
  linarith

/-- On nonnegative inputs the Python truncation in the scorer is the
floor. -/
lemma calculate_flood_risk_eq_floor (rainfall base_depth elevation : ℚ)
    (hr : 0 ≤ rainfall) (hb : 0 ≤ base_depth) :
    calculate_flood_risk rainfall base_depth elevation =
      min 99 ⌊min 100 ((rainfall / 50) * 100) * 0.7 + min 50 (base_depth * 10) * 0.3⌋ := by
  show min 99 (pyInt (min 100 ((rainfall / 50) * 100) * 0.7 + min 50 (base_depth * 10) * 0.3)) = _
  rw [pyInt, if_pos (total_risk_nonneg rainfall base_depth hr hb)]

/-- The scorer is monotone in both the rainfall and the base depth. -/
lemma calculate_flood_risk_mono (r₁ r₂ b₁ b₂ e : ℚ)
    (hr0 : 0 ≤ r₁) (hr : r₁ ≤ r₂) (hb0 : 0 ≤ b₁) (hb : b₁ ≤ b₂) :
    calculate_flood_risk r₁ b₁ e ≤ calculate_flood_risk r₂ b₂ e := by
  have hrs : min 100 ((r₁ / 50) * 100) ≤ min 100 ((r₂ / 50) * 100) :=
    min_le_min (le_refl _)
      (mul_le_mul_of_nonneg_right
        ((div_le_div_iff_of_pos_right (by norm_num : (0:ℚ) < 50)).mpr hr) (by norm_num))
  have hds : min 50 (b₁ * 10) ≤ min 50 (b₂ * 10) :=
    min_le_min (le_refl _) (mul_le_mul_of_nonneg_right hb (by norm_num))
  have ht : min 100 ((r₁ / 50) * 100) * 0.7 + min 50 (b₁ * 10) * 0.3 ≤
      min 100 ((r₂ / 50) * 100) * 0.7 + min 50 (b₂ * 10) * 0.3 := by
    have := mul_le_mul_of_nonneg_right hrs (by norm_num : (0:ℚ) ≤ 0.7)
    have := mul_le_mul_of_nonneg_right hds (by norm_num : (0:ℚ) ≤ 0.3)
    linarith
  rw [calculate_flood_risk_eq_floor r₁ b₁ e hr0 hb0,
    calculate_flood_risk_eq_floor r₂ b₂ e (le_trans hr0 hr) (le_trans hb0 hb)]
  exact min_le_min (le_refl _) (Int.floor_le_floor ht)

/-! ## Claims -/

/-- C2 counterexample: at currentRain 50 (forecastRain 0, baseDepth 0) the
code's scorer returns 70 while the spec's claimed formula gives 42, so the
claimed formula is not the code's risk score. -/
theorem C2_counterexample : calculate_flood_risk 50 0 15 ≠ spec_score 50 0 0 := by
  have h1 : calculate_flood_risk 50 0 15 = 70 := by
    norm_num [calculate_flood_risk, pyInt, min_def]
  have h2 : spec_score 50 0 0 = 42 := by
    norm_num [spec_score, min_def]
  rw [h1, h2]
  decide

/-- C2 amended: for every currentRain ≥ 0 and baseDepth ≥ 0 the risk score
equals `min(99, floor(0.7*min(100, currentRain/50*100) +
0.3*min(50, baseDepth*10)))`: a single current-rain term saturating at
50 mm/h, no forecast term and no 0.6/0.4 split. -/
theorem C2_theorem (rainfall base_depth elevation : ℚ)
    (hr : 0 ≤ rainfall) (hb : 0 ≤ base_depth) :
    calculate_flood_risk rainfall base_depth elevation =
      min 99 ⌊min 100 ((rainfall / 50) * 100) * 0.7 + min 50 (base_depth * 10) * 0.3⌋ :=
  calculate_flood_risk_eq_floor rainfall base_depth elevation hr hb

/-- C2 witness: the amended formula at the concrete input (50, 0, 15). -/
theorem C2_witness :
    calculate_flood_risk 50 0 15 =
      min 99 ⌊min 100 (((50:ℚ) / 50) * 100) * 0.7 + min 50 ((0:ℚ) * 10) * 0.3⌋ :=
  C2_theorem 50 0 15 (by norm_num) (le_refl 0)

/-- C5: for every rainfall ≥ 0 and baseDepth ≥ 0 (and any elevation
argument) the scorer's result lies in [0, 99]; it never reaches 100. -/
theorem C5_theorem (rainfall base_depth elevation : ℚ)
    (hr : 0 ≤ rainfall) (hb : 0 ≤ base_depth) :
    0 ≤ calculate_flood_risk rainfall base_depth elevation ∧
      calculate_flood_risk rainfall base_depth elevation ≤ 99 := by
  constructor
  · rw [calculate_flood_risk_eq_floor rainfall base_depth elevation hr hb]
    exact le_min (by norm_num)
      (Int.floor_nonneg.mpr (total_risk_nonneg rainfall base_depth hr hb))
  · exact min_le_left _ _

/-- C5 witness: the bounds at the concrete input (30, 0.5, 15). -/
theorem C5_witness :
    0 ≤ calculate_flood_risk 30 0.5 15 ∧ calculate_flood_risk 30 0.5 15 ≤ 99 :=
  C5_theorem 30 0.5 15 (by norm_num) (by norm_num)

/-- C6: the scorer at rainfall 30, base depth 0 (elevation 15, the
pipeline's invocation) returns exactly 42. -/
theorem C6_theorem : calculate_flood_risk 30 0 15 = 42 := by
  norm_num [calculate_flood_risk, pyInt, min_def]

/-- C10: the risk score is monotone non-decreasing separately in the
rainfall and in the base depth. -/
theorem C10_theorem (r₁ r₂ b₁ b₂ elevation : ℚ)
    (hr0 : 0 ≤ r₁) (hr : r₁ ≤ r₂) (hb0 : 0 ≤ b₁) (hb : b₁ ≤ b₂) :
    calculate_flood_risk r₁ b₁ elevation ≤ calculate_flood_risk r₂ b₁ elevation ∧
      calculate_flood_risk r₁ b₁ elevation ≤ calculate_flood_risk r₁ b₂ elevation :=
  ⟨calculate_flood_risk_mono r₁ r₂ b₁ b₁ elevation hr0 hr hb0 (le_refl b₁),
   calculate_flood_risk_mono r₁ r₁ b₁ b₂ elevation hr0 (le_refl r₁) hb0 hb⟩

/-- C10 witness: monotonicity at the concrete inputs (0 ≤ 30, 0 ≤ 1). -/
theorem C10_witness :
    calculate_flood_risk 0 0 15 ≤ calculate_flood_risk 30 0 15 ∧
      calculate_flood_risk 0 0 15 ≤ calculate_flood_risk 0 1 15 :=
  C10_theorem 0 30 0 1 15 (le_refl 0) (by norm_num) (le_refl 0) (by norm_num)

/-- C4 counterexample: at score 64 with current rainfall 45 and (spec-side)
forecast rainfall 0, the code composes the caution advisory (its tier 2
triggers on score ≥ 50) while the spec's claimed priority order demands
the rain-in-progress advisory (its tier 2 triggers only on
forecastRain > 30). -/
theorem C4_counterexample : advisory_tier 64 45 ≠ spec_advisory_tier 64 0 45 := by
  decide

/-- C4 amended: the advisory is selected by this priority order: score ≥ 80
gives the severe advisory; otherwise score ≥ 50 gives the caution advisory
regardless of rainfall; otherwise rainfall > 0 gives the rain-in-progress
advisory; otherwise the all-clear advisory. -/
theorem C4_theorem (score : ℤ) (rainfall : ℚ) :
    (80 ≤ score → advisory_tier score rainfall = Tier.severe) ∧
    (score < 80 → 50 ≤ score → advisory_tier score rainfall = Tier.warning) ∧
    (score < 80 → score < 50 → 0 < rainfall → advisory_tier score rainfall = Tier.rain) ∧
    (score < 80 → score < 50 → rainfall ≤ 0 → advisory_tier score rainfall = Tier.safe) := by
  unfold advisory_tier
  refine ⟨fun h1 => ?_, fun h1 h2 => ?_, fun h1 h2 h3 => ?_, fun h1 h2 h3 => ?_⟩
  · rw [if_pos h1]
  · rw [if_neg (by omega), if_pos h2]
  · rw [if_neg (by omega), if_neg (by omega), if_pos h3]
  · rw [if_neg (by omega), if_neg (by omega), if_neg (not_lt.mpr h3)]

/-- C4 witness: the severe tier at score 100 and the caution tier at
score 64. -/
theorem C4_witness :
    advisory_tier 100 0 = Tier.severe ∧ advisory_tier 64 45 = Tier.warning :=
  ⟨(C4_theorem 100 0).1 (by decide), (C4_theorem 64 45).2.1 (by decide) (by decide)⟩

/-- On every failure mode the weather call falls through to the simulation
fallback. -/
lemma get_real_weather_failed_eq_sim (nx ny : ℕ) (outcome : ApiOutcome)
    (r1 r2 r3 : ℕ) (h : weather_call_failed outcome = true) :
    get_real_weather nx ny outcome r1 r2 r3 = sim_weather r1 r2 r3 := by
  rcases outcome with _ | ⟨status, body⟩
  · rfl
  · rcases body with e | items
    · by_cases hs : status = 200 <;> simp [get_real_weather, hs]
    · have hs : status ≠ 200 := by simpa [weather_call_failed] using h
      simp [get_real_weather, hs]

/-- C1 counterexample: on a timeout with all three random draws equal to 0
the call returns the observation (0, 15, 1), not the zero-valued
observation (0, 0, 0): the simulation fallback's temperature draw lies in
[15, 25) and can never be 0. -/
theorem C1_counterexample :
    get_real_weather 61 126 ApiOutcome.timeout 0 0 0 ≠ ((0 : ℚ), (0 : ℚ), (0 : ℚ)) := by
  decide

/-- C1 amended: on every failure of the current-conditions call (timeout,
non-200 status, or parse error) and for every random draw,
`get_real_weather` returns a simulated observation whose rainfall is an
integer in [0, 5), temperature an integer in [15, 25) and wind speed an
integer in [1, 10) — rather than the zero-valued observation — and never
propagates an error to the caller. -/
theorem C1_theorem (nx ny : ℕ) (outcome : ApiOutcome) (r1 r2 r3 : ℕ)
    (h : weather_call_failed outcome = true) :
    ∃ a b c : ℕ, get_real_weather nx ny outcome r1 r2 r3 = ((a : ℚ), ((b : ℚ), (c : ℚ))) ∧
      a < 5 ∧ 15 ≤ b ∧ b < 25 ∧ 1 ≤ c ∧ c < 10 := by
  refine ⟨randint 0 5 r1, randint 15 25 r2, randint 1 10 r3,
    (get_real_weather_failed_eq_sim nx ny outcome r1 r2 r3 h).trans rfl, ?_, ?_, ?_, ?_, ?_⟩
  all_goals simp [randint]
  all_goals omega

/-- C1 witness: the amended statement at a timeout with zero draws. -/
theorem C1_witness :
    ∃ a b c : ℕ, get_real_weather 61 126 ApiOutcome.timeout 0 0 0 =
        ((a : ℚ), ((b : ℚ), (c : ℚ))) ∧
      a < 5 ∧ 15 ≤ b ∧ b < 25 ∧ 1 ≤ c ∧ c < 10 :=
  C1_theorem 61 126 ApiOutcome.timeout 0 0 0 rfl

/-- C3 counterexample: with the district resolved to base depth 0.5 and a
successful weather call reporting zero rainfall, the response's water
level is 0.5, while the spec's claimed formula with forecastRain 60 gives
0.8: the code computes no forecast term. -/
theorem C3_counterexample :
    (predict_flood_risk ⟨"강남구", 37.5172, 127.0474⟩
        (ApiOutcome.response 200 (Except.ok [])) 0 0 0).waterLevel ≠
      spec_water_level 0.5 0 60 := by
  have hcity : resolve_city "강남구" = (61, 126, 0.5) := by
    simp +decide [resolve_city, find_city_data, scan_city_table, KOREAN_CITIES_FLAT]
  show (resolve_city "강남구").2.2 +
      (get_real_weather (resolve_city "강남구").1 (resolve_city "강남구").2.1
        (ApiOutcome.response 200 (Except.ok [])) 0 0 0).1 * 0.01 ≠ _
  rw [hcity]
  show (0.5 : ℚ) + (0 : ℚ) * 0.01 ≠ _
  norm_num [spec_water_level]

/-- C3 amended: the response's waterLevel equals
`baseDepth + rainfall*0.01` (no forecast term), and the water level is
display-only: the response's risk score is computed by
`calculate_flood_risk` from the rainfall and the base depth alone. -/
theorem C3_theorem (request : LocationRequest) (outcome : ApiOutcome) (r1 r2 r3 : ℕ) :
    (predict_flood_risk request outcome r1 r2 r3).waterLevel =
      (resolve_city request.location).2.2 +
        (get_real_weather (resolve_city request.location).1
          (resolve_city request.location).2.1 outcome r1 r2 r3).1 * 0.01 ∧
    (predict_flood_risk request outcome r1 r2 r3).riskScore =
      calculate_flood_risk
        (get_real_weather (resolve_city request.location).1
          (resolve_city request.location).2.1 outcome r1 r2 r3).1
        (resolve_city request.location).2.2 15 :=
  ⟨rfl, rfl⟩

/-- C8: when the wall-clock minute is below 45 the current-conditions
query targets the hour before now (the calendar date rolling back
naturally across midnight), and from minute 45 on it targets the current
hour. -/
theorem C8_theorem (now : DateTime) (hh : now.hour < 24) (hm : now.minute < 60) :
    (now.minute < 45 → absHour (target_time now) = absHour now - 1) ∧
    (45 ≤ now.minute → target_time now = now) := by
  constructor
  · intro h45
    simp only [target_time, if_pos h45, sub_one_hour, absHour]
    by_cases h0 : now.hour = 0
    · rw [if_pos h0]
      simp only [h0]
      omega
    · rw [if_neg h0]
      simp only
      omega
  · intro h45
    simp only [target_time, if_neg (by omega : ¬ now.minute < 45)]

/-- C8 witness: at 00:44 the target is the previous day's hour 23; at
13:45 the target is the current hour. -/
theorem C8_witness :
    absHour (target_time ⟨20000, 0, 44⟩) = absHour ⟨20000, 0, 44⟩ - 1 ∧
    target_time ⟨20000, 13, 45⟩ = ⟨20000, 13, 45⟩ :=
  ⟨(C8_theorem ⟨20000, 0, 44⟩ (by decide) (by decide)).1 (by decide),
   (C8_theorem ⟨20000, 13, 45⟩ (by decide) (by decide)).2 (by decide)⟩

/-- C9: the request's lat and lon fields are inert: two requests differing
only in lat and lon, given the same external-world outcome and random
draws, produce identical responses. -/
theorem C9_theorem (location : String) (lat₁ lon₁ lat₂ lon₂ : ℚ)
    (outcome : ApiOutcome) (r1 r2 r3 : ℕ) :
    predict_flood_risk ⟨location, lat₁, lon₁⟩ outcome r1 r2 r3 =
      predict_flood_risk ⟨location, lat₂, lon₂⟩ outcome r1 r2 r3 :=
  rfl

/-- The table scan returns the record at the first index whose name is
contained in the text, when every earlier name is not. -/
lemma scan_city_table_first_match (table : List (String × CityData)) (text : String) :
    ∀ i (hi : i < table.length),
      isSubstr (table.get ⟨i, hi⟩).1 text = true →
      (∀ j (hj : j < i), isSubstr (table.get ⟨j, Nat.lt_trans hj hi⟩).1 text = false) →
      scan_city_table table text = some (table.get ⟨i, hi⟩).2 := by
  induction table with
  | nil =>
    intro i hi
    exact absurd hi (Nat.not_lt_zero i)
  | cons head tail ih =>
    obtain ⟨gu_name, data⟩ := head
    intro i hi hmatch hmin
    cases i with
    | zero =>
      simp only [List.get] at hmatch ⊢
      simp only [scan_city_table, hmatch, if_pos]
    | succ n =>
      have hhead : isSubstr gu_name text = false := hmin 0 (Nat.succ_pos n)
      simp only [List.get] at hmatch ⊢
      rw [scan_city_table, if_neg (by simp [hhead])]
      exact ih n (Nat.lt_of_succ_lt_succ hi) hmatch
        (fun j hj => hmin (j + 1) (Nat.succ_lt_succ hj))

/-- The table scan fails when no name in the table is contained in the
text. -/
lemma scan_city_table_eq_none (table : List (String × CityData)) (text : String)
    (hall : ∀ e ∈ table, isSubstr e.1 text = false) :
    scan_city_table table text = none := by
  induction table with
  | nil => rfl
  | cons head tail ih =>
    obtain ⟨gu_name, data⟩ := head
    have h1 : isSubstr gu_name text = false := hall (gu_name, data) (List.mem_cons_self _ _)
    rw [scan_city_table, if_neg (by simp [h1])]
    exact ih (fun e he => hall e (List.mem_cons_of_mem _ he))

/-- C7: the resolver scans the directory in its declared order and returns
the record of the first district whose name is a case-sensitive substring
of the text (earlier non-matching entries are passed over); when no name
in the table is contained in the text the scan yields nothing and the
pipeline uses the default grid (60, 127) with base depth 0.5. -/
theorem C7_theorem (table : List (String × CityData)) (text : String) :
    (∀ i (hi : i < table.length),
      isSubstr (table.get ⟨i, hi⟩).1 text = true →
      (∀ j (hj : j < i), isSubstr (table.get ⟨j, Nat.lt_trans hj hi⟩).1 text = false) →
      scan_city_table table text = some (table.get ⟨i, hi⟩).2) ∧
    ((∀ e ∈ table, isSubstr e.1 text = false) → scan_city_table table text = none) ∧
    ((∀ e ∈ KOREAN_CITIES_FLAT, isSubstr e.1 text = false) →
      resolve_city text = (60, 127, 0.5)) := by
  refine ⟨scan_city_table_first_match table text, scan_city_table_eq_none table text, ?_⟩
  intro hall
  have hnone : find_city_data text = none :=
    scan_city_table_eq_none KOREAN_CITIES_FLAT text hall
  rw [resolve_city, hnone]

/-- C7 witness: the first entry wins for a text containing its name, and a
text containing no directory name falls back to the default record. -/
theorem C7_witness :
    scan_city_table KOREAN_CITIES_FLAT "강남구 역삼동" =
        some (37.5172, 127.0474, 61, 126, 0.5) ∧
    scan_city_table KOREAN_CITIES_FLAT "Paris" = none ∧
    resolve_city "Paris" = (60, 127, 0.5) := by
  have h₁ := C7_theorem KOREAN_CITIES_FLAT "강남구 역삼동"
  have h₂ := C7_theorem KOREAN_CITIES_FLAT "Paris"
  have hall : ∀ e ∈ KOREAN_CITIES_FLAT, isSubstr e.1 "Paris" = false := by decide
  have hA := h₁.1 0 (by decide) (by decide) (fun j hj => absurd hj (Nat.not_lt_zero j))
  exact ⟨hA, h₂.2.1 hall, h₂.2.2 hall⟩

end FloodGuard
